import Mathlib

/-!
Verification development for the Strands-Agent orchestration layer.

The definitions below are a shallow embedding of the Python sources:
  * `app/memory/session.py`  — identity / namespace resolver,
  * `app/memory/client.py`   — memory resource provisioner (ensure / find / poll),
  * `app/main.py`            — the `/invoke` orchestrator,
  * `app/agents/hooks.py`    — `LongTermMemoryHook` (before/after invocation),
  * `app/agents/personal_assistant_agent.py` — system prompt assembly.

External effects (the boto3 / MemoryClient backend, the agent model call, the
wall clock) are passed in explicitly as environment records, so every function
is a pure, executable Lean definition.  Python truthiness (`x or y`), dict
`.get` (returning `None`), and exception flow (`Except`) are modelled
explicitly where the source relies on them.
-/

namespace StrandsAgent

/-- Python `a or b` for an optional string `a` (falsy = `None` or `""`). -/
def pyOrStr (a : Option String) (b : String) : String :=
  match a with
  | some s => if s = "" then b else s
  | none => b

/-- Python `a or b` where both operands are optional strings; returns the
first truthy value, else `b` (which may itself be falsy). -/
def pyOrOpt (a b : Option String) : Option String :=
  match a with
  | some s => if s = "" then b else some s
  | none => b

/-- Python truthiness of an optional string (`None` and `""` are falsy). -/
def truthyStr : Option String → Bool
  | some s => s ≠ ""
  | none => false

/-- Python `a or b` for an optional list (falsy = `None` or `[]`). -/
def pyOrList {α : Type} (a : Option (List α)) (b : List α) : List α :=
  match a with
  | some l => if l.isEmpty then b else l
  | none => b

/-- Python `str(x)` for an optional string (f-string renders `None` as "None"). -/
def pyStr : Option String → String
  | some s => s
  | none => "None"

/-- Auxiliary: is `n` a contiguous sublist of `l`? -/
def listInfix (n : List Char) : List Char → Bool
  | [] => n.isEmpty
  | c :: t => n.isPrefixOf (c :: t) || listInfix n t

/-- Python `needle in hay` on strings (substring containment). -/
def strContains (hay needle : String) : Bool :=
  listInfix needle.data hay.data

/-- Python `s.startswith(pre)`. -/
def pyStartsWith (s pre : String) : Bool :=
  pre.data.isPrefixOf s.data

/-- ASCII lowercase of one character (the fragment of Python `str.lower`
exercised by the error messages involved). -/
def charLower (c : Char) : Char :=
  if 'A' ≤ c && c ≤ 'Z' then Char.ofNat (c.toNat + 32) else c

/-- Python `s.lower()`. -/
def pyLower (s : String) : String :=
  ⟨s.data.map charLower⟩

/-- Whitespace as recognised by Python `str.strip()`. -/
def isPySpace (c : Char) : Bool :=
  c = ' ' || c = '\t' || c = '\n' || c = '\r' || c = '\x0b' || c = '\x0c'

/-- Python `s.strip()`. -/
def pyStrip (s : String) : String :=
  ⟨((s.data.dropWhile isPySpace).reverse.dropWhile isPySpace).reverse⟩

/-- Python `s[:n]` on a string (slice of the first `n` characters). -/
def pySlice (s : String) (n : Nat) : String :=
  ⟨s.data.take n⟩

/-- Python `"\n".join(xs)`. -/
def joinNL : List String → String
  | [] => ""
  | [s] => s
  | s :: rest => s ++ "\n" ++ joinNL rest

/-! ## `app/memory/session.py` — Namespace & Identity Resolver -/

/-- `actor_id_for_user(user_id)`: identity mapping. -/
def actor_id_for_user (user_id : String) : String := user_id

/-- `session_id_or_default(session_id)`: Python `session_id or
f"session-\x7buuid.uuid4().hex[:8]\x7d"`.  The fresh `uuid4().hex` value
(32 lowercase hex characters) is passed in as `uuid_hex`. -/
def session_id_or_default (session_id : Option String) (uuid_hex : String) : String :=
  pyOrStr session_id ("session-" ++ pySlice uuid_hex 8)

/-- `profile_session_id(actor_id)`: the stable pseudo-session id. -/
def profile_session_id (actor_id : String) : String :=
  "profile-" ++ actor_id

/-- `summary_namespace(actor_id, session_id)`. -/
def summary_namespace (actor_id session_id : String) : String :=
  "/summaries/" ++ actor_id ++ "/" ++ session_id

/-- Whether a string contains the `/` separator used by `summary_namespace`. -/
def hasSlash (s : String) : Bool :=
  decide ('/' ∈ s.data)

/-- Lowercase-hex-digit predicate: the alphabet of Python `uuid4().hex`. -/
def isHexChar (c : Char) : Bool :=
  c.isDigit || ('a' ≤ c && c ≤ 'f')

/-! ### Lemmas about slash-free string concatenation -/

theorem slashfree_append_inj (l₁ l₂ r₁ r₂ : List Char)
    (h₁ : '/' ∉ l₁) (h₂ : '/' ∉ l₂)
    (h : l₁ ++ '/' :: r₁ = l₂ ++ '/' :: r₂) : l₁ = l₂ ∧ r₁ = r₂ := by
  induction l₁ generalizing l₂ with
  | nil =>
    cases l₂ with
    | nil => simpa using h
    | cons c l₂' =>
      simp only [List.nil_append, List.cons_append, List.cons.injEq] at h
      exact absurd (show ('/' : Char) ∈ c :: l₂' by
        rw [← h.1]; exact List.mem_cons_self _ _) h₂
  | cons c l₁' ih =>
    cases l₂ with
    | nil =>
      simp only [List.cons_append, List.nil_append, List.cons.injEq] at h
      exact absurd (show ('/' : Char) ∈ c :: l₁' by
        rw [h.1]; exact List.mem_cons_self _ _) h₁
    | cons d l₂' =>
      simp only [List.cons_append, List.cons.injEq] at h
      obtain ⟨rfl, h'⟩ := h
      have hrec := ih l₂' (fun hm => h₁ (List.mem_cons_of_mem _ hm))
        (fun hm => h₂ (List.mem_cons_of_mem _ hm)) h'
      exact ⟨by rw [hrec.1], hrec.2⟩

theorem summary_namespace_data (a s : String) :
    (summary_namespace a s).data =
      "/summaries/".data ++ (a.data ++ '/' :: s.data) := by
  simp [summary_namespace, String.data_append]

/-- C5 (counterexample): `summary_namespace` is not injective on arbitrary
string pairs — an actor id containing `/` collides with a different pair. -/
theorem summary_namespace_not_injective :
    summary_namespace "a" "b/c" = summary_namespace "a/b" "c"
    ∧ ¬ (("a" : String) = "a/b" ∧ ("b/c" : String) = "c") := by
  refine ⟨by decide, by decide⟩

/-- C5 (amended): `summary_namespace` is a pure deterministic function of
`(actor_id, session_id)` — equal pairs give equal namespaces — and it is
injective on pairs whose actor id contains no `/` character: two such pairs
with equal namespaces are equal componentwise. -/
theorem summary_namespace_deterministic_injective
    (a₁ s₁ a₂ s₂ : String) (h₁ : hasSlash a₁ = false) (h₂ : hasSlash a₂ = false) :
    (a₁ = a₂ → s₁ = s₂ → summary_namespace a₁ s₁ = summary_namespace a₂ s₂)
    ∧ (summary_namespace a₁ s₁ = summary_namespace a₂ s₂ → a₁ = a₂ ∧ s₁ = s₂) := by
  constructor
  · rintro rfl rfl; rfl
  · intro h
    have hd := congrArg String.data h
    rw [summary_namespace_data, summary_namespace_data] at hd
    have hd' := List.append_cancel_left hd
    have hm₁ : '/' ∉ a₁.data := by
      simpa [hasSlash] using h₁
    have hm₂ : '/' ∉ a₂.data := by
      simpa [hasSlash] using h₂
    have := slashfree_append_inj a₁.data a₂.data s₁.data s₂.data hm₁ hm₂ hd'
    exact ⟨String.ext this.1, String.ext this.2⟩

/-- Witness for `summary_namespace_deterministic_injective` at concrete
slash-free actor ids. -/
theorem summary_namespace_deterministic_injective_witness :
    ("alice" : String) = "alice" ∧ ("s-1" : String) = "s-1" :=
  (summary_namespace_deterministic_injective "alice" "s-1" "alice" "s-1"
    (by decide) (by decide)).2 rfl

/-- C7 (counterexample): when the supplied `session_id` is the empty string it
is present but, being Python-falsy, is not returned — a fresh token is
generated instead. -/
theorem session_id_or_default_empty_not_returned :
    session_id_or_default (some "") "0123456789abcdef0123456789abcdef"
      = "session-01234567"
    ∧ ("session-01234567" : String) ≠ "" := by
  refine ⟨by decide, by decide⟩

/-- C7 (amended): `session_id_or_default` returns the supplied `session_id`
whenever it is present and non-empty; when it is absent (or empty, hence
Python-falsy) it returns `"session-"` followed by the first 8 characters of a
fresh `uuid4().hex`, i.e. 8 hexadecimal characters. -/
theorem session_id_or_default_spec (sid : Option String) (uuid : String)
    (hhex : ∀ c ∈ uuid.data, isHexChar c = true) (hlen : uuid.length = 32) :
    (∀ s, sid = some s → s ≠ "" → session_id_or_default sid uuid = s)
    ∧ ((sid = none ∨ sid = some "") →
        session_id_or_default sid uuid = "session-" ++ pySlice uuid 8
        ∧ (pySlice uuid 8).length = 8
        ∧ ∀ c ∈ (pySlice uuid 8).data, isHexChar c = true) := by
  constructor
  · rintro s rfl hs
    simp [session_id_or_default, pyOrStr, hs]
  · intro hsid
    refine ⟨?_, ?_, ?_⟩
    · rcases hsid with rfl | rfl <;> simp [session_id_or_default, pyOrStr]
    · have hlen' : uuid.data.length = 32 := hlen
      have hps : (pySlice uuid 8).length = (uuid.data.take 8).length := rfl
      rw [hps, List.length_take, hlen']
      decide
    · intro c hc
      exact hhex c (List.take_subset _ _ hc)

/-- Witness for `session_id_or_default_spec`: a present non-empty session id
is returned unchanged, and the generated fallback has the stated shape. -/
theorem session_id_or_default_spec_witness :
    session_id_or_default (some "sess-42") "00000000000000000000000000000000"
      = "sess-42"
    ∧ (session_id_or_default none "00000000000000000000000000000000"
        = "session-" ++ pySlice "00000000000000000000000000000000" 8
      ∧ (pySlice "00000000000000000000000000000000" 8).length = 8
      ∧ ∀ c ∈ (pySlice "00000000000000000000000000000000" 8).data,
          isHexChar c = true) := by
  have h := session_id_or_default_spec (some "sess-42")
    "00000000000000000000000000000000" (by decide) (by decide)
  have h' := session_id_or_default_spec none
    "00000000000000000000000000000000" (by decide) (by decide)
  exact ⟨h.1 "sess-42" rfl (by decide), h'.2 (Or.inl rfl)⟩

/-! ## `app/memory/client.py` — Memory Resource Provisioner

The boto3 control plane is abstracted as explicit inputs: a listing of
memory summaries, a `get` function resolving an id to a full memory dict
(or raising), and a per-iteration `fetch` function giving the status
observed by each poll of `ctrl_get_memory` (iteration `i` starts at elapsed
time `3 * i` seconds, since the loop sleeps 3 seconds per iteration). -/

/-- A memory dict as returned by `get_memory` / built from a summary.
Fields are optional, mirroring Python `dict.get`. -/
structure Mem where
  id : Option String
  name : Option String
  status : Option String
deriving DecidableEq, Repr

/-- A `MemorySummary` entry of `list_memories`. -/
structure MemSummary where
  id : Option String
  name : Option String
  status : Option String
deriving DecidableEq, Repr

/-- The Python exceptions distinguished by `client.py`'s handlers. -/
inductive PyError where
  | timeoutError (msg : String)
  | runtimeError (msg : String)
  | clientError (msg : String)
  | otherError (msg : String)
deriving DecidableEq, Repr

/-- `status in ("ACTIVE", "FAILED", "DELETING", "DELETED")` (a `None`
status is never in the tuple). -/
def isTerminal (status : Option String) : Bool :=
  match status with
  | some s => s = "ACTIVE" || s = "FAILED" || s = "DELETING" || s = "DELETED"
  | none => false

/-- The loop of `poll_memory_status`: iteration `i` runs iff its start time
`3 * i` is before the deadline `timeout_sec`; a fetch error is swallowed and
polling continues; a fetched memory is returned iff its status is terminal;
once the deadline has passed a `TimeoutError` naming the id and the bound is
raised. -/
def poll_loop (fetch : Nat → Except String Mem) (memory_id : String)
    (timeout_sec : Nat) (i : Nat) : Except PyError Mem :=
  if _h : 3 * i < timeout_sec then
    match fetch i with
    | .ok mem =>
      if isTerminal mem.status then .ok mem
      else poll_loop fetch memory_id timeout_sec (i + 1)
    | .error _ => poll_loop fetch memory_id timeout_sec (i + 1)
  else
    .error (.timeoutError ("Memory " ++ memory_id ++
      " did not become ACTIVE within " ++ toString timeout_sec ++ "s"))
termination_by timeout_sec - 3 * i
decreasing_by all_goals omega

/-- `poll_memory_status(memory_id, timeout_sec)` with the control-plane
responses `fetch`. -/
def poll_memory_status (fetch : Nat → Except String Mem) (memory_id : String)
    (timeout_sec : Nat) : Except PyError Mem :=
  poll_loop fetch memory_id timeout_sec 0

/-- Whether poll iteration `i` observes a terminal status (a fetch error
observes nothing). -/
def observedTerminal (fetch : Nat → Except String Mem) (i : Nat) : Bool :=
  match fetch i with
  | .ok mem => isTerminal mem.status
  | .error _ => false

/-- The matching test of ` find_memory_by_name_or_prefix`:
`m_name == target_name or (m_id and m_id.startswith(target_name))`
(`None` compares unequal to a string; a falsy id skips the prefix test). -/
def summaryMatches (target_name : String) (m : MemSummary) : Bool :=
  m.name == some target_name ||
    (match m.id with
     | some i => !(i == "") && pyStartsWith i target_name
     | none => false)

/-- Resolving a matched summary: `ctrl_get_memory(m_id)`, falling back to a
dict built from the summary when that call raises. -/
def resolveSummary (get : Option String → Except String Mem) (m : MemSummary) : Mem :=
  match get m.id with
  | .ok full => full
  | .error _ => { id := m.id, name := m.name, status := m.status }

/-- The finder ` find_memory_by_name_or_prefix` over the (already
pagination-flattened) listing: returns the resolution of the first summary
that matches, else `None`. -/
def find_memory_by_name_or_prefix (listing : List MemSummary)
    (get : Option String → Except String Mem) (target_name : String) :
    Option Mem :=
  match listing with
  | [] => none
  | m :: rest =>
    if summaryMatches target_name m then some (resolveSummary get m)
    else find_memory_by_name_or_prefix rest get target_name

/-- The external world as seen by `ensure_memory`: configuration, the
listing returned by discovery (first run and the re-run after a create
conflict), `get_memory`, `create_memory`, and the per-id polling fetches. -/
structure ProvisionEnv where
  override_id : Option String
  memory_name : String
  listing1 : List MemSummary
  listing2 : List MemSummary
  get : Option String → Except String Mem
  create : Except PyError Mem
  fetch : Option String → Nat → Except String Mem

/-- `ensure_memory(name)`: override fast path, then discovery, then
creation with the "already exists" conflict recovery. -/
def ensure_memory (env : ProvisionEnv) (name : Option String) :
    Except PyError Mem :=
  let target_name := pyOrStr name env.memory_name
  if truthyStr env.override_id then
    poll_memory_status (env.fetch env.override_id) (pyStr env.override_id) 60
  else
    match find_memory_by_name_or_prefix env.listing1 env.get target_name with
    | some existing =>
      poll_memory_status (env.fetch existing.id) (pyStr existing.id) 60
    | none =>
      match env.create with
      | .ok created =>
        poll_memory_status (env.fetch created.id) (pyStr created.id) 90
      | .error e =>
        match e with
        | .clientError msg =>
          if strContains (pyLower msg) "already exists" then
            match find_memory_by_name_or_prefix env.listing2 env.get target_name with
            | some existing =>
              poll_memory_status (env.fetch existing.id) (pyStr existing.id) 90
            | none =>
              .error (.runtimeError
                "Create reported 'already exists' but finder couldn’t locate it.")
          else .error (.clientError msg)
        | other => .error other

/-- `lifespan`: application startup runs `ensure_memory()` and stores the
resulting resource and its id on the application state. -/
structure AppState where
  memory : Mem
  memory_id : Option String
deriving DecidableEq, Repr

/-- The startup half of `lifespan(app)`. -/
def lifespan (env : ProvisionEnv) : Except PyError AppState :=
  (ensure_memory env none).map fun mem => { memory := mem, memory_id := mem.id }

/-! ### Polling lemmas -/

theorem poll_loop_step (fetch : Nat → Except String Mem) (memory_id : String)
    (timeout_sec i : Nat) (hobs : observedTerminal fetch i = false) :
    poll_loop fetch memory_id timeout_sec i =
      poll_loop fetch memory_id timeout_sec (i + 1) := by
  rw [poll_loop]
  by_cases h3 : 3 * i < timeout_sec
  · simp only [h3, dite_true]
    unfold observedTerminal at hobs
    cases hf : fetch i with
    | ok mem =>
      rw [hf] at hobs
      have hterm : isTerminal mem.status = false := hobs
      simp [hterm]
    | error e => rfl
  · simp only [h3, dite_false]
    rw [poll_loop]
    have h3' : ¬ 3 * (i + 1) < timeout_sec := by omega
    simp [h3']

theorem poll_loop_advance (fetch : Nat → Except String Mem) (memory_id : String)
    (timeout_sec : Nat) (i : Nat)
    (hobs : ∀ j, j < i → observedTerminal fetch j = false) :
    poll_loop fetch memory_id timeout_sec 0 =
      poll_loop fetch memory_id timeout_sec i := by
  induction i with
  | zero => rfl
  | succ n ih =>
    rw [ih (fun j hj => hobs j (Nat.lt_succ_of_lt hj))]
    exact poll_loop_step fetch memory_id timeout_sec n (hobs n (Nat.lt_succ_self n))

/-- C3: the polling contract of `poll_memory_status` (and of the identical
`_poll_memory_status` in `app/memory/init.py`).  Iteration `i` runs at
elapsed time `3 * i` (fixed 3-second interval).  (1) As soon as a fetch
observes a status in the terminal set `{ACTIVE, FAILED, DELETING, DELETED}`
before the deadline, the fetched metadata is returned — in particular any
fetch exceptions at earlier iterations are swallowed and polling continues.
(2) If no iteration before the deadline observes a terminal status, a
`TimeoutError` naming the resource id and the elapsed bound is raised. -/
theorem poll_memory_status_contract (fetch : Nat → Except String Mem)
    (memory_id : String) (timeout_sec : Nat) :
    (∀ i mem, 3 * i < timeout_sec →
      (∀ j, j < i → observedTerminal fetch j = false) →
      fetch i = .ok mem → isTerminal mem.status = true →
      poll_memory_status fetch memory_id timeout_sec = .ok mem)
    ∧ ((∀ j, 3 * j < timeout_sec → observedTerminal fetch j = false) →
      poll_memory_status fetch memory_id timeout_sec =
        .error (.timeoutError ("Memory " ++ memory_id ++
          " did not become ACTIVE within " ++ toString timeout_sec ++ "s"))) := by
  constructor
  · intro i mem h3 hobs hf ht
    unfold poll_memory_status
    rw [poll_loop_advance fetch memory_id timeout_sec i hobs, poll_loop]
    simp [h3, hf, ht]
  · intro hobs
    unfold poll_memory_status
    have h3 : ¬ 3 * ((timeout_sec + 2) / 3) < timeout_sec := by omega
    rw [poll_loop_advance fetch memory_id timeout_sec ((timeout_sec + 2) / 3)
      (fun j hj => hobs j (by omega)), poll_loop]
    simp [h3]

/-- Witness for `poll_memory_status_contract`: a fetch that errors on the
first iteration and reports `ACTIVE` on the second returns the metadata
(the error is swallowed); a fetch that always errors times out with the
message naming the id and the bound. -/
theorem poll_memory_status_contract_witness :
    poll_memory_status
      (fun i => if i = 0 then .error "boom"
                else .ok { id := some "m-1", name := some "N", status := some "ACTIVE" })
      "m-1" 90
      = .ok { id := some "m-1", name := some "N", status := some "ACTIVE" }
    ∧ poll_memory_status (fun _ => .error "down") "m-2" 7
      = .error (.timeoutError "Memory m-2 did not become ACTIVE within 7s") := by
  constructor
  · exact (poll_memory_status_contract _ "m-1" 90).1 1 _ (by decide)
      (by intro j hj; interval_cases j; rfl) rfl (by decide)
  · have h := (poll_memory_status_contract (fun _ => .error "down") "m-2" 7).2
      (fun j _ => rfl)
    simpa using h

/-! ### Discovery, conflict recovery and startup -/

/-- C4 (counterexample): discovery does not prefer an exact-name match.
With a target name `"TargetName"`, a listing whose first entry merely has an
id prefixed by the target and whose second entry has the exact name, the
first entry is returned, not the exact-name resource. -/
theorem find_memory_returns_prefix_match_before_exact_name :
    find_memory_by_name_or_prefix
      [{ id := some "TargetName-xyz", name := some "Other", status := some "ACTIVE" },
       { id := some "id-123", name := some "TargetName", status := some "ACTIVE" }]
      (fun i => .ok { id := i, name := none, status := some "ACTIVE" })
      "TargetName"
      = some { id := some "TargetName-xyz", name := none, status := some "ACTIVE" }
    ∧ (some { id := some "TargetName-xyz", name := none, status := some "ACTIVE" }
        ≠ some ({ id := some "id-123", name := none, status := some "ACTIVE" } : Mem)) := by
  refine ⟨by decide, by decide⟩

/-- C4 (amended): discovery returns the resolution of the *first* summary in
listing order that matches by exact name or id-prefix — exact-name and
id-prefix matches have equal priority, so the exact-name resource is
selected exactly when no other match precedes it in the listing. -/
theorem find_memory_selects_first_match (listing : List MemSummary)
    (get : Option String → Except String Mem) (target_name : String) :
    find_memory_by_name_or_prefix listing get target_name
      = (listing.find? (summaryMatches target_name)).map (resolveSummary get) := by
  induction listing with
  | nil => rfl
  | cons m rest ih =>
    rw [ find_memory_by_name_or_prefix]
    by_cases h : summaryMatches target_name m
    · rw [List.find?_cons_of_pos _ h]
      simp [h]
    · rw [List.find?_cons_of_neg _ (by simpa using h)]
      simp [h, ih]

/-- C2: in `ensure_memory`, when the override is unset and first discovery
finds nothing, a creation failure that is a `ClientError` whose message
contains `"already exists"` (case-insensitively) re-runs discovery: if the
re-run finds a resource, that resource is polled and its poll result
returned; if it finds nothing, a fatal `RuntimeError` (inconsistent state)
is raised; and a `ClientError` without that substring propagates unchanged. -/
theorem ensure_memory_conflict_contract (env : ProvisionEnv)
    (name : Option String) (msg : String)
    (hov : truthyStr env.override_id = false)
    (hfind1 : find_memory_by_name_or_prefix env.listing1 env.get
      (pyOrStr name env.memory_name) = none)
    (hcreate : env.create = .error (.clientError msg)) :
    (strContains (pyLower msg) "already exists" = true →
      (∀ existing,
        find_memory_by_name_or_prefix env.listing2 env.get
          (pyOrStr name env.memory_name) = some existing →
        ensure_memory env name =
          poll_memory_status (env.fetch existing.id) (pyStr existing.id) 90)
      ∧ ( find_memory_by_name_or_prefix env.listing2 env.get
          (pyOrStr name env.memory_name) = none →
        ensure_memory env name = .error (.runtimeError
          "Create reported 'already exists' but finder couldn’t locate it.")))
    ∧ (strContains (pyLower msg) "already exists" = false →
      ensure_memory env name = .error (.clientError msg)) := by
  constructor
  · intro hsub
    constructor
    · intro existing hfind2
      simp [ensure_memory, hov, hfind1, hcreate, hsub, hfind2]
    · intro hfind2
      simp [ensure_memory, hov, hfind1, hcreate, hsub, hfind2]
  · intro hsub
    simp [ensure_memory, hov, hfind1, hcreate, hsub]

/-- Witness for `ensure_memory_conflict_contract`: a concrete conflict whose
re-run discovery finds the resource, which is then polled to `ACTIVE` and
returned. -/
theorem ensure_memory_conflict_contract_witness :
    ensure_memory
      { override_id := none
        memory_name := "ProjectNamerMemory"
        listing1 := []
        listing2 := [{ id := some "mem-9", name := some "ProjectNamerMemory",
                       status := some "CREATING" }]
        get := fun i => .ok { id := i, name := some "ProjectNamerMemory",
                              status := some "ACTIVE" }
        create := .error (.clientError
          "An error occurred: Memory with name ProjectNamerMemory already exists")
        fetch := fun i _ => .ok { id := i, name := some "ProjectNamerMemory",
                                  status := some "ACTIVE" } }
      none
      = .ok { id := some "mem-9", name := some "ProjectNamerMemory",
              status := some "ACTIVE" } := by
  have h := (ensure_memory_conflict_contract
    { override_id := none
      memory_name := "ProjectNamerMemory"
      listing1 := []
      listing2 := [{ id := some "mem-9", name := some "ProjectNamerMemory",
                     status := some "CREATING" }]
      get := fun i => .ok { id := i, name := some "ProjectNamerMemory",
                            status := some "ACTIVE" }
      create := .error (.clientError
        "An error occurred: Memory with name ProjectNamerMemory already exists")
      fetch := fun i _ => .ok { id := i, name := some "ProjectNamerMemory",
                                status := some "ACTIVE" } }
    none "An error occurred: Memory with name ProjectNamerMemory already exists"
    rfl (by decide) rfl).1 (by decide)
  rw [h.1 { id := some "mem-9", name := some "ProjectNamerMemory",
            status := some "ACTIVE" } (by decide)]
  rw [poll_memory_status, poll_loop]
  simp [isTerminal]

/-- C10: `poll_memory_status` treats the non-operable terminal statuses
`FAILED`, `DELETING`, `DELETED` like `ACTIVE`: the override fast path of
`ensure_memory` returns such a resource as a normal value (no exception),
and application startup (`lifespan`) installs it as the process-wide memory
resource. -/
theorem startup_accepts_non_active_terminal (env : ProvisionEnv) (mem : Mem)
    (hov : truthyStr env.override_id = true)
    (hfetch : env.fetch env.override_id 0 = .ok mem)
    (hstatus : mem.status = some "FAILED" ∨ mem.status = some "DELETING"
      ∨ mem.status = some "DELETED") :
    ensure_memory env none = .ok mem
    ∧ lifespan env = .ok { memory := mem, memory_id := mem.id } := by
  have hterm : isTerminal mem.status = true := by
    rcases hstatus with h | h | h <;> simp [isTerminal, h]
  have hpoll : poll_memory_status (env.fetch env.override_id)
      (pyStr env.override_id) 60 = .ok mem := by
    rw [poll_memory_status, poll_loop]
    simp [hfetch, hterm]
  have hensure : ensure_memory env none = .ok mem := by
    simp [ensure_memory, hov, hpoll]
  exact ⟨hensure, by simp [lifespan, hensure, Except.map]⟩

/-- Witness for `startup_accepts_non_active_terminal`: a backend reporting
`FAILED` on the first poll of the override id still yields a successful
startup holding the failed resource. -/
theorem startup_accepts_non_active_terminal_witness :
    ensure_memory
      { override_id := some "mem-X"
        memory_name := "ProjectNamerMemory"
        listing1 := [], listing2 := []
        get := fun i => .ok { id := i, name := none, status := some "FAILED" }
        create := .error (.otherError "unused")
        fetch := fun i _ => .ok { id := i, name := none, status := some "FAILED" } }
      none
      = .ok { id := some "mem-X", name := none, status := some "FAILED" }
    ∧ lifespan
      { override_id := some "mem-X"
        memory_name := "ProjectNamerMemory"
        listing1 := [], listing2 := []
        get := fun i => .ok { id := i, name := none, status := some "FAILED" }
        create := .error (.otherError "unused")
        fetch := fun i _ => .ok { id := i, name := none, status := some "FAILED" } }
      = .ok { memory := { id := some "mem-X", name := none, status := some "FAILED" },
              memory_id := some "mem-X" } :=
  startup_accepts_non_active_terminal _ _ rfl rfl (Or.inl rfl)

/-! ## `app/main.py` — the `/invoke` orchestrator

`retrieve_memories` results ("hits") are heterogeneous.  A record exposes
text under one of several optional fields; `str(r)` is carried as `repr`. -/

/-- One retrieval record. -/
structure Rec where
  text : Option String
  content : Option String
  value : Option String
  summary : Option String
  repr : String
deriving DecidableEq, Repr

/-- The possible shapes of a `retrieve_memories` result: a mapping with
optional `records` / `items` keys, a bare list, or `None`. -/
inductive HitsVal where
  | dict (records items : Option (List Rec))
  | list (recs : List Rec)
  | pynone
deriving DecidableEq, Repr

/-- The `records` extraction of `_extract_text_snippets`:
`(hits or {}).get("records") or (hits or {}).get("items") or
(hits if isinstance(hits, list) else [])`, with the surrounding
`try/except` falling back to `hits if isinstance(hits, list) else []`
when `hits` is a (truthy) list and `.get` raises `AttributeError`. -/
def extractRecords : HitsVal → List Rec
  | .dict records items => pyOrList records (pyOrList items [])
  | .list recs => recs
  | .pynone => []

/-- The per-record text of `_extract_text_snippets`:
`r.get("text") or r.get("content") or r.get("value") or r.get("summary")
or str(r)`. -/
def recText (r : Rec) : String :=
  pyOrStr r.text (pyOrStr r.content (pyOrStr r.value (pyOrStr r.summary r.repr)))

/-- `_extract_text_snippets(hits, max_snippets)`. -/
def extract_text_snippets (hits : HitsVal) (max_snippets : Nat) : String :=
  joinNL ((extractRecords hits).take max_snippets |>.map (fun r => "- " ++ recText r))

/-- The per-record text of `LongTermMemoryHook.before_invocation`:
`getattr(r, "text", None) or r.get("text") or r.get("summary") or
r.get("content")` (`Rec.text` stands for the text field however exposed). -/
def hookRecText (r : Rec) : Option String :=
  pyOrOpt r.text (pyOrOpt r.summary r.content)

/-- The snippet list built by `before_invocation`: records whose extracted
text is truthy, prefixed with `"- "`. -/
def hookSnippets (recs : List Rec) : List String :=
  recs.filterMap fun r =>
    match hookRecText r with
    | some t => if t = "" then none else some ("- " ++ t)
    | none => none

/-- `LongTermMemoryHook.before_invocation`: on retrieval success over a
mapping-shaped result, append the (at most `top_k`) snippets as a read-only
context block; any exception — including the `AttributeError` raised by
`.get` on a truthy bare-list result — is swallowed and the prompt is left
unchanged. -/
def hook_before_invocation (system_prompt : String)
    (retrieve : Except String HitsVal) (top_k : Nat) : String :=
  match retrieve with
  | .error _ => system_prompt
  | .ok hits =>
    match hits with
    | .list _ => system_prompt
    | other =>
      let snippets := hookSnippets (extractRecords other)
      if snippets.isEmpty then system_prompt
      else system_prompt ++ "\n\n# Long-term user context (read-only)\n" ++
        joinNL (snippets.take top_k)

/-- A `create_event` call (a durable write) together with which code path
issued it. -/
inductive WriteOrigin where
  /-- `LongTermMemoryHook.after_invocation` (profile stream). -/
  | hookProfile
  /-- `invoke`'s unconditional short-term write (active session stream). -/
  | orchSession
  /-- `invoke`'s long-term mirror (profile stream, only when hooks are off). -/
  | orchProfile
deriving DecidableEq, Repr

/-- The payload of one `create_event` call. -/
structure WriteOp where
  origin : WriteOrigin
  memory_id : String
  actor_id : String
  session_id : String
  messages : List (String × String)
deriving DecidableEq, Repr

/-- The request body of `/invoke` (`InvokeRequest`). -/
structure InvokeRequest where
  user_id : String
  prompt : String
  session_id : Option String
  use_long_term : Bool
  use_hooks : Bool
  long_term_top_k : Nat
deriving DecidableEq, Repr

/-- The response of `/invoke` (`InvokeResponse`); `debug_errors` is the
`errors` dict merged into `debug` (its other entries — `region` and the
`meta` of `run_personal_assistant` — have keys disjoint from the two error
keys and are omitted). -/
structure InvokeResponse where
  memory_id : String
  actor_id : String
  session_id : String
  result_text : String
  debug_errors : List (String × String)
deriving DecidableEq, Repr

/-- The external effects consumed by one `/invoke` turn. -/
structure TurnEnv where
  /-- `BASE_SYSTEM_PROMPT` (it embeds the current wall-clock time). -/
  base_prompt : String
  /-- fresh `uuid4().hex` for `session_id_or_default`. -/
  uuid_hex : String
  /-- result of the manual-path `retrieve_memories` call. -/
  retrieve_manual : Except String HitsVal
  /-- result of the hook-path `retrieve_memories` call. -/
  retrieve_hook : Except String HitsVal
  /-- the agent's response text. -/
  agent_result : String
  /-- `str(getattr(request, "input", ""))` seen by `after_invocation`. -/
  hook_request_input : String
  /-- outcome of the short-term `create_event` (session stream). -/
  session_write : Except String Unit
  /-- outcome of the long-term mirror `create_event` (profile stream). -/
  profile_write : Except String Unit

/-- The observable outcome of one `/invoke` turn: the HTTP response, the
system prompt the agent was invoked with, and every attempted durable
write in program order. -/
structure TurnResult where
  response : InvokeResponse
  system_prompt : String
  writes : List WriteOp
deriving DecidableEq, Repr

/-- `run_personal_assistant`'s system prompt assembly: manual long-term
context is appended only when it is truthy and hooks are off. -/
def build_system_prompt (base long_term_context : String) (use_hooks : Bool) :
    String :=
  if long_term_context ≠ "" ∧ use_hooks = false then
    base ++ "\n\n# Long-term user context (read-only)\n" ++ pyStrip long_term_context
  else base

/-- The `/invoke` handler (`app/main.py`), composed with
`run_personal_assistant` and the `LongTermMemoryHook` lifecycle:
 1. resolve actor / session ids;
 2. manual hydration (only when `use_long_term and not use_hooks`),
    swallowing any retrieval exception into an empty context;
 3. assemble the system prompt (manual context, then — when hooks are on —
    the hook's `before_invocation` augmentation) and run the agent;
 4. when hooks are on, the hook's `after_invocation` mirrors the turn into
    the profile stream (its own exceptions swallowed);
 5. the orchestrator always writes the turn to the active session stream,
    recording a failure under `"short_term_write_error"`;
 6. only when hooks are off, the orchestrator mirrors the turn to the
    profile stream, recording a failure under `"long_term_write_error"`. -/
def invoke (memory_id : String) (req : InvokeRequest) (env : TurnEnv) :
    TurnResult :=
  let actor_id := actor_id_for_user req.user_id
  let session_id := session_id_or_default req.session_id env.uuid_hex
  let long_term_context :=
    if req.use_long_term && !req.use_hooks then
      match env.retrieve_manual with
      | .ok hits => extract_text_snippets hits req.long_term_top_k
      | .error _ => ""
    else ""
  let sp := build_system_prompt env.base_prompt long_term_context req.use_hooks
  let system_prompt :=
    if req.use_hooks then
      hook_before_invocation sp env.retrieve_hook req.long_term_top_k
    else sp
  let result_text := env.agent_result
  let hookWrites : List WriteOp :=
    if req.use_hooks then
      [{ origin := .hookProfile, memory_id, actor_id,
         session_id := profile_session_id actor_id,
         messages := [(env.hook_request_input, "USER"), (result_text, "ASSISTANT")] }]
    else []
  let sessionWrite : WriteOp :=
    { origin := .orchSession, memory_id, actor_id, session_id,
      messages := [(req.prompt, "USER"), (result_text, "ASSISTANT")] }
  let errors1 : List (String × String) :=
    match env.session_write with
    | .ok _ => []
    | .error e => [("short_term_write_error", e)]
  let profileWrites : List WriteOp :=
    if !req.use_hooks then
      [{ origin := .orchProfile, memory_id, actor_id,
         session_id := profile_session_id actor_id,
         messages := [(req.prompt, "USER"), (result_text, "ASSISTANT")] }]
    else []
  let errors2 : List (String × String) :=
    if !req.use_hooks then
      match env.profile_write with
      | .ok _ => []
      | .error e => [("long_term_write_error", e)]
    else []
  { response :=
      { memory_id, actor_id, session_id, result_text,
        debug_errors := errors1 ++ errors2 }
    system_prompt
    writes := hookWrites ++ [sessionWrite] ++ profileWrites }

/-! ### Orchestration claims -/

theorem joinNL_snippets_ne_empty (t1 t2 t3 : String) :
    joinNL ["- " ++ t1, "- " ++ t2, "- " ++ t3] ≠ "" := by
  simp only [joinNL]
  intro hcontr
  have hlen := congrArg String.length hcontr
  simp only [String.length_append] at hlen
  have h2 : ("- " : String).length = 2 := by decide
  have h0 : ("" : String).length = 0 := by decide
  omega

/-- C1: per `/invoke` turn, exactly one profile-stream write-back is
attempted — by the hook's `after_invocation` iff `use_hooks`, by the
orchestrator's mirror iff not (never zero, never two) — it targets the
actor's ProfileSession stream and carries `(prompt, USER), (response,
ASSISTANT)` (for the hook path, given that the framework presents the
prompt as `request.input`); and independently of the strategy the
orchestrator attempts exactly one write of the turn to the active
session's stream. -/
theorem invoke_exactly_one_profile_writeback (memory_id : String)
    (req : InvokeRequest) (env : TurnEnv) :
    ((invoke memory_id req env).writes.filter fun w =>
        w.origin == .hookProfile || w.origin == .orchProfile).length = 1
    ∧ ((invoke memory_id req env).writes.filter fun w =>
        w.origin == .hookProfile).length = (if req.use_hooks then 1 else 0)
    ∧ ((invoke memory_id req env).writes.filter fun w =>
        w.origin == .orchProfile).length = (if req.use_hooks then 0 else 1)
    ∧ (∀ w ∈ (invoke memory_id req env).writes,
        w.origin = .hookProfile ∨ w.origin = .orchProfile →
        w.session_id = profile_session_id (actor_id_for_user req.user_id)
        ∧ (env.hook_request_input = req.prompt →
            w.messages = [(req.prompt, "USER"), (env.agent_result, "ASSISTANT")]))
    ∧ ((invoke memory_id req env).writes.filter fun w =>
        w.origin == .orchSession).length = 1
    ∧ (∀ w ∈ (invoke memory_id req env).writes, w.origin = .orchSession →
        w.session_id = session_id_or_default req.session_id env.uuid_hex
        ∧ w.messages = [(req.prompt, "USER"), (env.agent_result, "ASSISTANT")]) := by
  cases hh : req.use_hooks <;>
    simp [invoke, hh, actor_id_for_user]

/-- Witness for `invoke_exactly_one_profile_writeback`: a hook-strategy turn
with the framework presenting the prompt as `request.input`. -/
theorem invoke_exactly_one_profile_writeback_witness :
    ((invoke "m-1"
      { user_id := "u", prompt := "hi", session_id := some "s1",
        use_long_term := true, use_hooks := true, long_term_top_k := 5 }
      { base_prompt := "BASE", uuid_hex := "00000000000000000000000000000000",
        retrieve_manual := .ok .pynone, retrieve_hook := .ok .pynone,
        agent_result := "ok!", hook_request_input := "hi",
        session_write := .ok (), profile_write := .ok () }).writes.filter fun w =>
        w.origin == .hookProfile || w.origin == .orchProfile).length = 1
    ∧ ({ origin := .hookProfile, memory_id := "m-1", actor_id := "u",
         session_id := "profile-u",
         messages := [("hi", "USER"), ("ok!", "ASSISTANT")] } : WriteOp).messages
        = [("hi", "USER"), ("ok!", "ASSISTANT")] := by
  have h := invoke_exactly_one_profile_writeback "m-1"
    { user_id := "u", prompt := "hi", session_id := some "s1",
      use_long_term := true, use_hooks := true, long_term_top_k := 5 }
    { base_prompt := "BASE", uuid_hex := "00000000000000000000000000000000",
      retrieve_manual := .ok .pynone, retrieve_hook := .ok .pynone,
      agent_result := "ok!", hook_request_input := "hi",
      session_write := .ok (), profile_write := .ok () }
  refine ⟨h.1, ?_⟩
  exact (h.2.2.2.1
    { origin := .hookProfile, memory_id := "m-1", actor_id := "u",
      session_id := "profile-u",
      messages := [("hi", "USER"), ("ok!", "ASSISTANT")] }
    (by decide) (Or.inl rfl)).2 rfl

/-- C6: under the manual hydration path (`use_hooks = false`,
`use_long_term = true`), when retrieval yields exactly three records each
bearing a (truthy) `text` field and `top_k` admits them, the agent's
instructions are the base system prompt with exactly those three snippets
appended, each prefixed `"- "`; and after the response exactly two durable
writes are attempted: one to the active session's stream and one to the
actor's ProfileSession stream, each carrying the turn. -/
theorem invoke_manual_three_records (memory_id : String) (req : InvokeRequest)
    (env : TurnEnv) (hits : HitsVal) (r1 r2 r3 : Rec) (t1 t2 t3 : String)
    (hh : req.use_hooks = false) (hlt : req.use_long_term = true)
    (hret : env.retrieve_manual = .ok hits)
    (hrecs : extractRecords hits = [r1, r2, r3])
    (hk : 3 ≤ req.long_term_top_k)
    (h1 : r1.text = some t1) (h1' : t1 ≠ "")
    (h2 : r2.text = some t2) (h2' : t2 ≠ "")
    (h3 : r3.text = some t3) (h3' : t3 ≠ "") :
    (invoke memory_id req env).system_prompt
      = env.base_prompt ++ "\n\n# Long-term user context (read-only)\n"
        ++ pyStrip (joinNL ["- " ++ t1, "- " ++ t2, "- " ++ t3])
    ∧ (invoke memory_id req env).writes =
      [{ origin := .orchSession, memory_id := memory_id,
         actor_id := actor_id_for_user req.user_id,
         session_id := session_id_or_default req.session_id env.uuid_hex,
         messages := [(req.prompt, "USER"), (env.agent_result, "ASSISTANT")] },
       { origin := .orchProfile, memory_id := memory_id,
         actor_id := actor_id_for_user req.user_id,
         session_id := profile_session_id (actor_id_for_user req.user_id),
         messages := [(req.prompt, "USER"), (env.agent_result, "ASSISTANT")] }] := by
  have htake : ([r1, r2, r3] : List Rec).take req.long_term_top_k = [r1, r2, r3] :=
    List.take_of_length_le (by simpa using hk)
  have hsnips : extract_text_snippets hits req.long_term_top_k
      = joinNL ["- " ++ t1, "- " ++ t2, "- " ++ t3] := by
    rw [extract_text_snippets, hrecs, htake]
    simp [recText, pyOrStr, h1, h1', h2, h2', h3, h3']
  have hne : joinNL ["- " ++ t1, "- " ++ t2, "- " ++ t3] ≠ "" :=
    joinNL_snippets_ne_empty t1 t2 t3
  constructor
  · simp [invoke, hh, hlt, hret, hsnips, build_system_prompt, hne]
  · simp [invoke, hh]

/-- Witness for `invoke_manual_three_records`: three concrete records. -/
theorem invoke_manual_three_records_witness :
    (invoke "m-1"
      { user_id := "u", prompt := "hi", session_id := some "s1",
        use_long_term := true, use_hooks := false, long_term_top_k := 5 }
      { base_prompt := "BASE", uuid_hex := "00000000000000000000000000000000",
        retrieve_manual := .ok (.dict (some
          [{ text := some "likes tea", content := none, value := none,
             summary := none, repr := "r1" },
           { text := some "lives in Lisbon", content := none, value := none,
             summary := none, repr := "r2" },
           { text := some "prefers brevity", content := none, value := none,
             summary := none, repr := "r3" }]) none),
        retrieve_hook := .ok .pynone, agent_result := "ok!",
        hook_request_input := "hi", session_write := .ok (),
        profile_write := .ok () }).system_prompt
      = "BASE" ++ "\n\n# Long-term user context (read-only)\n"
        ++ pyStrip (joinNL ["- " ++ "likes tea", "- " ++ "lives in Lisbon",
            "- " ++ "prefers brevity"])
    ∧ (invoke "m-1"
      { user_id := "u", prompt := "hi", session_id := some "s1",
        use_long_term := true, use_hooks := false, long_term_top_k := 5 }
      { base_prompt := "BASE", uuid_hex := "00000000000000000000000000000000",
        retrieve_manual := .ok (.dict (some
          [{ text := some "likes tea", content := none, value := none,
             summary := none, repr := "r1" },
           { text := some "lives in Lisbon", content := none, value := none,
             summary := none, repr := "r2" },
           { text := some "prefers brevity", content := none, value := none,
             summary := none, repr := "r3" }]) none),
        retrieve_hook := .ok .pynone, agent_result := "ok!",
        hook_request_input := "hi", session_write := .ok (),
        profile_write := .ok () }).writes =
      [{ origin := .orchSession, memory_id := "m-1", actor_id := "u",
         session_id := "s1",
         messages := [("hi", "USER"), ("ok!", "ASSISTANT")] },
       { origin := .orchProfile, memory_id := "m-1", actor_id := "u",
         session_id := "profile-u",
         messages := [("hi", "USER"), ("ok!", "ASSISTANT")] }] := by
  exact invoke_manual_three_records "m-1" _ _ _ _ _ _ _ _ _ rfl rfl rfl rfl
    (by decide) rfl (by decide) rfl (by decide) rfl (by decide)

/-- C8: a hydration-retrieval exception is non-fatal under either strategy:
the system prompt is the unaugmented base prompt, the agent is still
invoked and its response returned, and no entry of the response's
debug/error map reports the retrieval failure (only write-back error keys
can appear). -/
theorem invoke_retrieval_failure_degrades (memory_id : String)
    (req : InvokeRequest) (env : TurnEnv) (e : String) :
    (req.use_hooks = false → req.use_long_term = true →
      env.retrieve_manual = .error e →
      (invoke memory_id req env).system_prompt = env.base_prompt
      ∧ (invoke memory_id req env).response.result_text = env.agent_result
      ∧ ∀ kv ∈ (invoke memory_id req env).response.debug_errors,
          kv.1 = "short_term_write_error" ∨ kv.1 = "long_term_write_error")
    ∧ (req.use_hooks = true → env.retrieve_hook = .error e →
      (invoke memory_id req env).system_prompt = env.base_prompt
      ∧ (invoke memory_id req env).response.result_text = env.agent_result
      ∧ ∀ kv ∈ (invoke memory_id req env).response.debug_errors,
          kv.1 = "short_term_write_error" ∨ kv.1 = "long_term_write_error") := by
  constructor
  · intro hh hlt hret
    refine ⟨?_, ?_, ?_⟩
    · simp [invoke, hh, hlt, hret, build_system_prompt]
    · simp [invoke]
    · intro kv hkv
      cases hs : env.session_write <;> cases hp : env.profile_write <;>
        simp [invoke, hh, hs, hp] at hkv
      all_goals rcases hkv with rfl | rfl <;> simp
  · intro hh hret
    refine ⟨?_, ?_, ?_⟩
    · simp [invoke, hh, hret, build_system_prompt, hook_before_invocation]
    · simp [invoke]
    · intro kv hkv
      cases hs : env.session_write <;> cases hp : env.profile_write <;>
        simp [invoke, hh, hs, hp] at hkv
      all_goals rcases hkv with rfl | rfl <;> simp

/-- Witness for `invoke_retrieval_failure_degrades`: a failing manual
retrieval still yields the agent's response over the base prompt. -/
theorem invoke_retrieval_failure_degrades_witness :
    (invoke "m-1"
      { user_id := "u", prompt := "hi", session_id := some "s1",
        use_long_term := true, use_hooks := false, long_term_top_k := 5 }
      { base_prompt := "BASE", uuid_hex := "00000000000000000000000000000000",
        retrieve_manual := .error "backend down", retrieve_hook := .ok .pynone,
        agent_result := "ok!", hook_request_input := "hi",
        session_write := .ok (), profile_write := .ok () }).system_prompt
      = "BASE"
    ∧ (invoke "m-1"
      { user_id := "u", prompt := "hi", session_id := some "s1",
        use_long_term := true, use_hooks := false, long_term_top_k := 5 }
      { base_prompt := "BASE", uuid_hex := "00000000000000000000000000000000",
        retrieve_manual := .error "backend down", retrieve_hook := .ok .pynone,
        agent_result := "ok!", hook_request_input := "hi",
        session_write := .ok (), profile_write := .ok () }).response.result_text
      = "ok!" := by
  have h := (invoke_retrieval_failure_degrades "m-1"
    { user_id := "u", prompt := "hi", session_id := some "s1",
      use_long_term := true, use_hooks := false, long_term_top_k := 5 }
    { base_prompt := "BASE", uuid_hex := "00000000000000000000000000000000",
      retrieve_manual := .error "backend down", retrieve_hook := .ok .pynone,
      agent_result := "ok!", hook_request_input := "hi",
      session_write := .ok (), profile_write := .ok () }
    "backend down").1 rfl rfl rfl
  exact ⟨h.1, h.2.1⟩

/-- C9: write-back failures after a successful agent response do not fail
the request: the response still carries the agent's text; a session-stream
failure is recorded under `"short_term_write_error"`, an orchestrator
profile-stream failure (hooks off) under the distinct key
`"long_term_write_error"`, and nothing else ever appears in the error
map. -/
theorem invoke_writeback_failures_reported (memory_id : String)
    (req : InvokeRequest) (env : TurnEnv) :
    (invoke memory_id req env).response.result_text = env.agent_result
    ∧ (∀ e, env.session_write = .error e →
        ("short_term_write_error", e) ∈
          (invoke memory_id req env).response.debug_errors)
    ∧ (∀ e, req.use_hooks = false → env.profile_write = .error e →
        ("long_term_write_error", e) ∈
          (invoke memory_id req env).response.debug_errors)
    ∧ (∀ k v, (k, v) ∈ (invoke memory_id req env).response.debug_errors →
        (k = "short_term_write_error" ∧ env.session_write = .error v)
        ∨ (k = "long_term_write_error" ∧ env.profile_write = .error v))
    ∧ ("short_term_write_error" : String) ≠ "long_term_write_error" := by
  refine ⟨by simp [invoke], ?_, ?_, ?_, by decide⟩
  · intro e he
    cases hh : req.use_hooks <;> simp [invoke, hh, he]
  · intro e hh he
    cases hs : env.session_write <;> simp [invoke, hh, hs, he]
  · intro k v hkv
    cases hh : req.use_hooks <;> cases hs : env.session_write <;>
      cases hp : env.profile_write <;>
      simp [invoke, hh, hs, hp] at hkv
    all_goals first
      | (rcases hkv with ⟨rfl, h2⟩ | ⟨rfl, h2⟩ <;> subst h2 <;> simp [hs, hp])
      | (obtain ⟨rfl, h2⟩ := hkv; subst h2; simp [hs, hp])

/-- Witness for `invoke_writeback_failures_reported`: both writes fail
under the manual strategy; the response still returns and both keys are
present. -/
theorem invoke_writeback_failures_reported_witness :
    (invoke "m-1"
      { user_id := "u", prompt := "hi", session_id := some "s1",
        use_long_term := false, use_hooks := false, long_term_top_k := 5 }
      { base_prompt := "BASE", uuid_hex := "00000000000000000000000000000000",
        retrieve_manual := .ok .pynone, retrieve_hook := .ok .pynone,
        agent_result := "ok!", hook_request_input := "hi",
        session_write := .error "s-fail",
        profile_write := .error "p-fail" }).response.result_text = "ok!"
    ∧ ("short_term_write_error", "s-fail") ∈
        (invoke "m-1"
          { user_id := "u", prompt := "hi", session_id := some "s1",
            use_long_term := false, use_hooks := false, long_term_top_k := 5 }
          { base_prompt := "BASE", uuid_hex := "00000000000000000000000000000000",
            retrieve_manual := .ok .pynone, retrieve_hook := .ok .pynone,
            agent_result := "ok!", hook_request_input := "hi",
            session_write := .error "s-fail",
            profile_write := .error "p-fail" }).response.debug_errors
    ∧ ("long_term_write_error", "p-fail") ∈
        (invoke "m-1"
          { user_id := "u", prompt := "hi", session_id := some "s1",
            use_long_term := false, use_hooks := false, long_term_top_k := 5 }
          { base_prompt := "BASE", uuid_hex := "00000000000000000000000000000000",
            retrieve_manual := .ok .pynone, retrieve_hook := .ok .pynone,
            agent_result := "ok!", hook_request_input := "hi",
            session_write := .error "s-fail",
            profile_write := .error "p-fail" }).response.debug_errors := by
  have h := invoke_writeback_failures_reported "m-1"
    { user_id := "u", prompt := "hi", session_id := some "s1",
      use_long_term := false, use_hooks := false, long_term_top_k := 5 }
    { base_prompt := "BASE", uuid_hex := "00000000000000000000000000000000",
      retrieve_manual := .ok .pynone, retrieve_hook := .ok .pynone,
      agent_result := "ok!", hook_request_input := "hi",
      session_write := .error "s-fail", profile_write := .error "p-fail" }
  exact ⟨h.1, h.2.1 "s-fail" rfl, h.2.2.1 "p-fail" rfl rfl⟩

end StrandsAgent
